import Mathlib

/-!
Verification of the session-authentication and conversation-reconstruction
core of the dashboard backend (`src/backend/server.py`).

Modelling conventions:
* timestamps are seconds since the epoch, as natural numbers; the display
  formatting `strftime("%Y-%m-%d %H:%M")` renders a UTC datetime truncated
  to the minute, and that rendering is injective and monotone on minute
  indices, so it is modelled by truncation to the minute index `t / 60`;
* a Mongo document collection is modelled by a list of records, a `find`
  with `sort(..., -1).limit(n)` by sorting the list with a newest-first
  relation and taking a prefix, `insert_one` by appending, and
  `delete_one` by removing the first matching record;
* the single point at which the chat handler can fail (the call to the
  external completion provider) is modelled by an `Except` argument;
* message roles are the literal strings compared by the source code.
-/

namespace VinaEu

/-- One turn in the per-user conversation log, as stored in the
`chat_messages` collection (the `ChatMessage` model): owning user,
role string (`"user"` or `"assistant"`), text content, optional
assistant confidence, and creation timestamp in seconds. -/
structure ChatMessage where
  user_id : String
  role : String
  content : String
  confidence : Option Nat
  timestamp : Nat
deriving DecidableEq, Repr

/-- A reconstructed question/answer record, as built by the pairing loop
of `get_ai_history`.  The `timestamp` field holds the minute index that
the source renders with `strftime("%Y-%m-%d %H:%M")`. -/
structure Conversation where
  id : String
  question : String
  answer : String
  confidence : Nat
  timestamp : Nat
deriving DecidableEq, Repr

/-- `strftime("%Y-%m-%d %H:%M")` on a UTC datetime, abstracted to the
minute index of an epoch-seconds timestamp (seconds are dropped). -/
def minutePrecision (t : Nat) : Nat := t / 60

/-- The record appended by `get_ai_history` for the valid candidate pair
with pair counter `k` (input positions `2*k` and `2*k+1`), assistant
entry `a` and user entry `u`: id `str(i // 2 + 1)`, question from the
user entry, answer from the assistant entry, confidence
`messages[i].get("confidence", 90)`, display timestamp from the
assistant entry. -/
def mkConversation (k : Nat) (a u : ChatMessage) : Conversation :=
  { id := toString (k + 1)
    question := u.content
    answer := a.content
    confidence := a.confidence.getD 90
    timestamp := minutePrecision a.timestamp }

/-- The pairing loop of `get_ai_history`:
`for i in range(0, len(messages), 2)`, appending a conversation when
`i + 1 < len(messages)` and the roles at `i`, `i+1` are exactly
(`"assistant"`, `"user"`), silently skipping the candidate pair
otherwise.  `k` is the pair counter `i / 2`; each iteration consumes the
two entries at positions `i` and `i + 1`. -/
def reconstructFrom (k : Nat) : List ChatMessage → List Conversation
  | a :: u :: rest =>
      if a.role = "assistant" ∧ u.role = "user" then
        mkConversation k a u :: reconstructFrom (k + 1) rest
      else
        reconstructFrom (k + 1) rest
  | _ => []

/-- The full reconstruction of `get_ai_history` over the fetched
newest-first message list, starting with pair counter `0`. -/
def reconstruct (messages : List ChatMessage) : List Conversation :=
  reconstructFrom 0 messages

/-- The pair counters (`i / 2` values) of the candidate pairs that the
pairing loop of `get_ai_history` accepts: position `i + 1` in bounds and
roles exactly (`"assistant"`, `"user"`). -/
def validPairIndicesFrom (k : Nat) : List ChatMessage → List Nat
  | a :: u :: rest =>
      if a.role = "assistant" ∧ u.role = "user" then
        k :: validPairIndicesFrom (k + 1) rest
      else
        validPairIndicesFrom (k + 1) rest
  | _ => []

/-- The accepted pair counters of a message list, starting from `0`. -/
def validPairIndices (messages : List ChatMessage) : List Nat :=
  validPairIndicesFrom 0 messages

/-- Newest-first order on stored messages: the database query
`sort("timestamp", -1)` of `get_ai_history`. -/
def newestFirst (a b : ChatMessage) : Prop := b.timestamp ≤ a.timestamp

instance : DecidableRel newestFirst := fun a b => Nat.decLe b.timestamp a.timestamp

instance : IsTotal ChatMessage newestFirst :=
  ⟨fun a b => Nat.le_total b.timestamp a.timestamp⟩

instance : IsTrans ChatMessage newestFirst :=
  ⟨fun _ _ _ h1 h2 => Nat.le_trans h2 h1⟩

/-- Newest-first order on reconstructed conversations, by display
timestamp. -/
def convNewestFirst (c d : Conversation) : Prop := d.timestamp ≤ c.timestamp

/-- The fetch of `get_ai_history`:
`db.chat_messages.find({"user_id": uid}).sort("timestamp", -1).limit(50)`
over the whole `chat_messages` collection `log`. -/
def listRecent (log : List ChatMessage) (uid : String) : List ChatMessage :=
  ((log.filter (fun m => m.user_id == uid)).insertionSort newestFirst).take 50

/-- The placeholder history entry substituted by `get_ai_history` when no
conversation was reconstructed (timestamp `2025-01-15 14:30` UTC as a
minute index). -/
def mockConversations : List Conversation :=
  [ { id := "1"
      question := "What\x27s driving the recent revenue increase?"
      answer := "Analysis shows three primary drivers: 1) 23% increase in enterprise customer acquisition, 2) 15% improvement in customer retention through AI-powered engagement, and 3) successful launch of premium AI advisory services contributing $340K additional revenue."
      confidence := 92
      timestamp := 28949190 } ]

/-- The `get_ai_history` handler: fetch the 50 most recent messages of
the authenticated user newest-first, pair them, and fall back to the
placeholder history when nothing was reconstructed. -/
def getAiHistory (log : List ChatMessage) (uid : String) : List Conversation :=
  let conversations := reconstruct (listRecent log uid)
  if conversations.isEmpty then mockConversations else conversations

/-- One authenticated browser/client session, as stored in the
`user_sessions` collection: opaque token, owning user, creation and
expiry timestamps in seconds. -/
structure Session where
  session_token : String
  user_id : String
  created_at : Nat
  expires_at : Nat
deriving DecidableEq, Repr

/-- Modelled from the spec: the Session minting step of
`process_session_id` (in `auth.py`, a module of this repository that is
not present under `src/`): after the identity provider resolves the
external session identifier, the service mints a new Session whose
expiry is creation time plus the fixed 7-day validity window, persists
it, and returns the token. -/
def mintSession (token uid : String) (now : Nat) : Session :=
  { session_token := token
    user_id := uid
    created_at := now
    expires_at := now + 7 * 24 * 60 * 60 }

/-- The attributes of a `Set-Cookie` produced by
`response.set_cookie` in `create_session`. -/
structure SessionCookie where
  key : String
  value : String
  httponly : Bool
  secure : Bool
  samesite : String
  max_age : Nat
  path : String
deriving DecidableEq, Repr

/-- The cookie set by `create_session` for a freshly minted session
token: httpOnly, secure, samesite none, 7-day max age, site-wide
path. -/
def sessionCookie (token : String) : SessionCookie :=
  { key := "session_token"
    value := token
    httponly := true
    secure := true
    samesite := "none"
    max_age := 7 * 24 * 60 * 60
    path := "/" }

/-- `db.user_sessions.delete_one({"session_token": token})`: remove the
first record whose token matches, leave the store unchanged when none
does. -/
def deleteOne (token : String) : List Session → List Session
  | [] => []
  | s :: rest =>
      if s.session_token = token then rest
      else s :: deleteOne token rest

/-- The body and cookie side effect of the `logout` response:
`{"message": "Logged out successfully"}` together with
`delete_cookie(key="session_token", path="/")`. -/
structure LogoutResponse where
  message : String
  cookieCleared : Bool
deriving DecidableEq, Repr

/-- The `logout` handler: when a token is presented, delete the matching
session record; in every case clear the client cookie and report
success. -/
def logout (token : Option String) (store : List Session) :
    LogoutResponse × List Session :=
  ({ message := "Logged out successfully", cookieCleared := true },
   match token with
   | some t => deleteOne t store
   | none => store)

/-- The response model `AIQueryResponse` of the chat handler; the
`timestamp` field holds the epoch-seconds value rendered by
`datetime.now(timezone.utc).isoformat()`. -/
structure AIQueryResponse where
  answer : String
  confidence : Nat
  timestamp : Nat
deriving DecidableEq, Repr

/-- The fallback answer returned by `ai_chat` when the completion call
raises. -/
def placeholderAnswer : String :=
  "I apologize, but I encountered an error processing your question. Please try again."

/-- The `ai_chat` handler.  The call to the external completion provider
(`chat.send_message`) is the failure point of the `try` block and is
modelled by the `completion` argument.  On success the handler persists
the user message and then the assistant message (confidence 92) and
returns the answer; on failure the `except` branch returns the
zero-confidence placeholder response, and the inserts that follow the
completion call in the `try` block are never reached. -/
def aiChat (uid question : String) (completion : Except String String)
    (now : Nat) (log : List ChatMessage) :
    AIQueryResponse × List ChatMessage :=
  match completion with
  | Except.ok response =>
      ({ answer := response, confidence := 92, timestamp := now },
       log ++
        [ { user_id := uid, role := "user", content := question,
            confidence := none, timestamp := now },
          { user_id := uid, role := "assistant", content := response,
            confidence := some 92, timestamp := now } ])
  | Except.error _ =>
      ({ answer := placeholderAnswer, confidence := 0, timestamp := now },
       log)

/-! Helper lemmas about the pairing loop. -/

/-- Every reconstructed conversation takes its display timestamp from
some entry of the input list. -/
theorem reconstructFrom_ts_mem :
    ∀ (k : Nat) (ms : List ChatMessage) (c : Conversation),
      c ∈ reconstructFrom k ms →
        ∃ m, m ∈ ms ∧ c.timestamp = minutePrecision m.timestamp
  | _, [], _, h => by simp [reconstructFrom] at h
  | _, [_], _, h => by simp [reconstructFrom] at h
  | k, a :: u :: rest, c, h => by
      simp only [reconstructFrom] at h
      by_cases hr : a.role = "assistant" ∧ u.role = "user"
      · rw [if_pos hr, List.mem_cons] at h
        rcases h with hc | hc
        · exact ⟨a, by simp, by simp [hc, mkConversation]⟩
        · obtain ⟨m, hm, ht⟩ := reconstructFrom_ts_mem (k + 1) rest c hc
          exact ⟨m, by simp [hm], ht⟩
      · rw [if_neg hr] at h
        obtain ⟨m, hm, ht⟩ := reconstructFrom_ts_mem (k + 1) rest c h
        exact ⟨m, by simp [hm], ht⟩

/-- A newest-first input list yields a newest-first conversation list. -/
theorem sorted_reconstructFrom :
    ∀ (k : Nat) (ms : List ChatMessage),
      List.Sorted newestFirst ms →
        List.Sorted convNewestFirst (reconstructFrom k ms)
  | _, [], _ => by simp [reconstructFrom]
  | _, [_], _ => by simp [reconstructFrom]
  | k, a :: u :: rest, h => by
      have hrest : List.Sorted newestFirst rest := h.of_cons.of_cons
      have ih := sorted_reconstructFrom (k + 1) rest hrest
      simp only [reconstructFrom]
      by_cases hr : a.role = "assistant" ∧ u.role = "user"
      · rw [if_pos hr, List.sorted_cons]
        refine ⟨fun c hc => ?_, ih⟩
        obtain ⟨m, hm, ht⟩ := reconstructFrom_ts_mem (k + 1) rest c hc
        have ham : newestFirst a m :=
          (List.sorted_cons.mp h).1 m (List.mem_cons_of_mem u hm)
        show c.timestamp ≤ (mkConversation k a u).timestamp
        rw [ht]
        exact Nat.div_le_div_right ham
      · rw [if_neg hr]
        exact ih

/-- The identifiers of the reconstructed conversations are exactly the
accepted pair counters, shifted by one and rendered as strings. -/
theorem reconstructFrom_map_id :
    ∀ (k : Nat) (ms : List ChatMessage),
      (reconstructFrom k ms).map Conversation.id
        = (validPairIndicesFrom k ms).map (fun j => toString (j + 1))
  | _, [] => by simp [reconstructFrom, validPairIndicesFrom]
  | _, [_] => by simp [reconstructFrom, validPairIndicesFrom]
  | k, a :: u :: rest => by
      have ih := reconstructFrom_map_id (k + 1) rest
      simp only [reconstructFrom, validPairIndicesFrom]
      by_cases hr : a.role = "assistant" ∧ u.role = "user"
      · rw [if_pos hr, if_pos hr]
        simp [mkConversation, ih]
      · rw [if_neg hr, if_neg hr]
        exact ih

/-- A dangling entry appended after an even-length list is never paired:
the loop sees its second position out of bounds and drops it. -/
theorem reconstructFrom_append_singleton :
    ∀ (k : Nat) (ms : List ChatMessage) (m : ChatMessage),
      Even ms.length → reconstructFrom k (ms ++ [m]) = reconstructFrom k ms
  | _, [], _, _ => by simp [reconstructFrom]
  | _, [_], _, h => by
      rw [List.length_singleton] at h
      exact absurd h (by decide)
  | k, a :: u :: rest, m, h => by
      have h2 : Even rest.length := by
        rcases h with ⟨n, hn⟩
        simp only [List.length_cons] at hn
        exact ⟨n - 1, by omega⟩
      have ih := reconstructFrom_append_singleton (k + 1) rest m h2
      show reconstructFrom k (a :: u :: (rest ++ [m])) = _
      simp only [reconstructFrom, List.append_eq, ih]

/-- The conversation built from a valid (assistant, user) pair preceded
by an even number of entries is in the output, with the pair counter
shifted by the number of preceding pairs. -/
theorem mkConversation_mem_reconstructFrom :
    ∀ (j : Nat) (pre post : List ChatMessage) (a u : ChatMessage),
      Even pre.length → a.role = "assistant" → u.role = "user" →
        mkConversation (j + pre.length / 2) a u
          ∈ reconstructFrom j (pre ++ a :: u :: post)
  | j, [], post, a, u, _, ha, hu => by
      simp only [List.nil_append, reconstructFrom, if_pos (And.intro ha hu)]
      simp
  | _, [_], _, _, _, h, _, _ => by
      rw [List.length_singleton] at h
      exact absurd h (by decide)
  | j, x :: y :: pre2, post, a, u, h, ha, hu => by
      have h2 : Even pre2.length := by
        rcases h with ⟨n, hn⟩
        simp only [List.length_cons] at hn
        exact ⟨n - 1, by omega⟩
      have ih := mkConversation_mem_reconstructFrom (j + 1) pre2 post a u h2 ha hu
      have hidx : j + (x :: y :: pre2).length / 2 = (j + 1) + pre2.length / 2 := by
        simp only [List.length_cons]
        omega
      rw [hidx]
      simp only [List.cons_append, reconstructFrom]
      by_cases hxy : x.role = "assistant" ∧ y.role = "user"
      · rw [if_pos hxy]
        exact List.mem_cons_of_mem _ ih
      · rw [if_neg hxy]
        exact ih

/-! Helper lemmas about the session store. -/

/-- Deleting a token that matches no record leaves the store unchanged. -/
theorem deleteOne_of_filter_eq_nil :
    ∀ (t : String) (l : List Session),
      l.filter (fun s => s.session_token == t) = [] → deleteOne t l = l
  | _, [], _ => rfl
  | t, s :: rest, h => by
      by_cases hs : s.session_token = t
      · rw [List.filter_cons_of_pos (by simpa using hs)] at h
        exact absurd h (by simp)
      · rw [List.filter_cons_of_neg (by simpa using hs)] at h
        rw [deleteOne, if_neg hs, deleteOne_of_filter_eq_nil t rest h]

/-- When the stored tokens are distinct, deleting a token removes every
record matching it. -/
theorem filter_deleteOne_eq_nil :
    ∀ (t : String) (l : List Session),
      (l.map Session.session_token).Nodup →
        (deleteOne t l).filter (fun s => s.session_token == t) = []
  | _, [], _ => rfl
  | t, s :: rest, h => by
      rw [List.map_cons, List.nodup_cons] at h
      by_cases hs : s.session_token = t
      · rw [deleteOne, if_pos hs]
        refine List.filter_eq_nil_iff.mpr fun x hx => ?_
        have hxs : x.session_token ≠ s.session_token :=
          fun he => h.1 (he ▸ List.mem_map_of_mem Session.session_token hx)
        have hxt : x.session_token ≠ t := by
          rw [← hs]
          exact hxs
        simp [hxt]
      · rw [deleteOne, if_neg hs,
          List.filter_cons_of_neg (by simpa using hs),
          filter_deleteOne_eq_nil t rest h.2]

/-! The claims. -/

/-- C1: for the literal newest-first input
`[A("ans2", conf 95, 12:05), U("q2", 12:04), A("ans1", conf 90, 12:01), U("q1", 12:00)]`
(times of day encoded in epoch seconds: 43500, 43440, 43260, 43200),
the pairing of `get_ai_history` yields exactly two conversations in
order: first question `q2` with answer `ans2`, confidence 95, display
timestamp at minute 12:05 (minute index 725), then question `q1` with
answer `ans1`, confidence 90, display timestamp at minute 12:01 (minute
index 721). -/
theorem history_pairing_example :
    reconstruct
      [ { user_id := "u1", role := "assistant", content := "ans2",
          confidence := some 95, timestamp := 43500 },
        { user_id := "u1", role := "user", content := "q2",
          confidence := none, timestamp := 43440 },
        { user_id := "u1", role := "assistant", content := "ans1",
          confidence := some 90, timestamp := 43260 },
        { user_id := "u1", role := "user", content := "q1",
          confidence := none, timestamp := 43200 } ]
      = [ { id := "1", question := "q2", answer := "ans2",
            confidence := 95, timestamp := 725 },
          { id := "2", question := "q1", answer := "ans1",
            confidence := 90, timestamp := 721 } ] := by
  decide

/-- C2: an empty message log reconstructs to an empty conversation
list. -/
theorem reconstruct_empty : reconstruct [] = [] := rfl

/-- C3 counterexample: on the input whose roles are
(user, user, assistant, user), the first candidate pair is dropped and
the single emitted conversation carries identifier `"2"`, not `"1"`:
identifiers are not assigned consecutively in output order when a
preceding candidate pair is dropped. -/
theorem reconstruct_ids_counterexample :
    (reconstruct
      [ { user_id := "u1", role := "user", content := "x2",
          confidence := none, timestamp := 240 },
        { user_id := "u1", role := "user", content := "x1",
          confidence := none, timestamp := 180 },
        { user_id := "u1", role := "assistant", content := "ans",
          confidence := some 92, timestamp := 120 },
        { user_id := "u1", role := "user", content := "q",
          confidence := none, timestamp := 60 } ]).map Conversation.id = ["2"]
    ∧ (["2"] : List String) ≠ ["1"] := by
  refine ⟨by decide, by decide⟩

/-- C3 amended: the synthetic identifier of each reconstructed
conversation is determined by the input position of its candidate pair —
the conversation built from input positions `i` and `i + 1` receives
identifier `str(i / 2 + 1)` — so the identifier list equals the accepted
pair counters shifted by one, consecutive from 1 only when no preceding
candidate pair was dropped. -/
theorem reconstruct_ids_positional (ms : List ChatMessage) :
    (reconstruct ms).map Conversation.id
      = (validPairIndices ms).map (fun j => toString (j + 1)) :=
  reconstructFrom_map_id 0 ms

/-- C4: reconstruction is total and drops malformed candidate pairs
silently — appending a dangling entry after an even-length prefix
changes nothing (its second position is out of bounds), a lone trailing
entry produces no conversation, and a candidate pair whose roles are not
exactly (assistant, user) contributes nothing while reconstruction of
the subsequent pairs continues unaffected. -/
theorem reconstruct_drops_silently
    (ms rest : List ChatMessage) (m a u : ChatMessage) (k : Nat)
    (hlen : Even ms.length)
    (hroles : ¬(a.role = "assistant" ∧ u.role = "user")) :
    reconstruct (ms ++ [m]) = reconstruct ms ∧
    reconstructFrom k [m] = [] ∧
    reconstructFrom k (a :: u :: rest) = reconstructFrom (k + 1) rest := by
  refine ⟨reconstructFrom_append_singleton 0 ms m hlen, rfl, ?_⟩
  simp only [reconstructFrom]
  rw [if_neg hroles]

/-- C4 witness: a log consisting of the single dangling assistant entry
`A("ansX", 09:00)` produces no conversation and no error, and a
(user, user) candidate pair is dropped while the loop continues. -/
theorem reconstruct_drops_silently_witness :
    reconstruct
        ([] ++ [{ user_id := "u1", role := "assistant", content := "ansX",
                  confidence := some 92, timestamp := 32400 }])
      = reconstruct [] ∧
    reconstructFrom 0
        [{ user_id := "u1", role := "assistant", content := "ansX",
           confidence := some 92, timestamp := 32400 }] = [] ∧
    reconstructFrom 0
        [ { user_id := "u1", role := "user", content := "x2",
            confidence := none, timestamp := 120 },
          { user_id := "u1", role := "user", content := "x1",
            confidence := none, timestamp := 60 } ]
      = reconstructFrom 1 [] :=
  reconstruct_drops_silently [] []
    { user_id := "u1", role := "assistant", content := "ansX",
      confidence := some 92, timestamp := 32400 }
    { user_id := "u1", role := "user", content := "x2",
      confidence := none, timestamp := 120 }
    { user_id := "u1", role := "user", content := "x1",
      confidence := none, timestamp := 60 }
    0 (by decide) (by decide)

/-- C5: every valid (assistant, user) candidate pair of the newest-first
input — an assistant entry `a` and user entry `u` at input positions
`i`, `i + 1` with `i` even, here written as an even-length prefix `pre`
followed by `a`, `u` — produces a conversation in the output whose
question is the user entry content, whose answer is the assistant entry
content, whose confidence is the assistant entry confidence with 90 as
the default when absent, and whose display timestamp is the assistant
entry timestamp at minute precision. -/
theorem reconstruct_valid_pair (pre post : List ChatMessage)
    (a u : ChatMessage) (hpre : Even pre.length)
    (ha : a.role = "assistant") (hu : u.role = "user") :
    ({ id := toString (pre.length / 2 + 1),
       question := u.content,
       answer := a.content,
       confidence := a.confidence.getD 90,
       timestamp := minutePrecision a.timestamp } : Conversation)
      ∈ reconstruct (pre ++ a :: u :: post) := by
  have h := mkConversation_mem_reconstructFrom 0 pre post a u hpre ha hu
  simpa [reconstruct, mkConversation] using h

/-- C5 witness: the valid pair `A("ans1", conf absent, 12:01)`,
`U("q1", 12:00)` at positions 0, 1 yields the conversation with question
`q1`, answer `ans1`, the default confidence 90, and minute index 721
(12:01). -/
theorem reconstruct_valid_pair_witness :
    ({ id := "1", question := "q1", answer := "ans1",
       confidence := 90, timestamp := 721 } : Conversation)
      ∈ reconstruct
          [ { user_id := "u1", role := "assistant", content := "ans1",
              confidence := none, timestamp := 43260 },
            { user_id := "u1", role := "user", content := "q1",
              confidence := none, timestamp := 43200 } ] :=
  reconstruct_valid_pair [] []
    { user_id := "u1", role := "assistant", content := "ans1",
      confidence := none, timestamp := 43260 }
    { user_id := "u1", role := "user", content := "q1",
      confidence := none, timestamp := 43200 }
    (by decide) rfl rfl

/-- C6: the history read fetches at most the 50 most recent messages of
the authenticated user, newest-first by timestamp, and the reconstructed
conversations come out newest-first by display timestamp. -/
theorem history_read_spec (log : List ChatMessage) (uid : String) :
    (listRecent log uid).length ≤ 50 ∧
    List.Sorted newestFirst (listRecent log uid) ∧
    List.Sorted convNewestFirst (reconstruct (listRecent log uid)) := by
  have hs : List.Sorted newestFirst
      ((log.filter (fun m => m.user_id == uid)).insertionSort newestFirst) :=
    List.sorted_insertionSort newestFirst _
  have htake : List.Sorted newestFirst (listRecent log uid) :=
    List.Pairwise.sublist (List.take_sublist _ _) hs
  refine ⟨?_, htake, sorted_reconstructFrom 0 _ htake⟩
  simp only [listRecent, List.length_take]
  exact Nat.min_le_left _ _

/-- C7: logout always reports success and instructs the client to clear
its cookie; when the stored tokens are distinct, presenting a token
deletes the matching session record so that none with that token
remains, revoking the same token again is a no-op, and presenting no
token changes nothing. -/
theorem logout_spec (token : Option String) (t : String)
    (store : List Session)
    (h : (store.map Session.session_token).Nodup) :
    (logout token store).1
      = { message := "Logged out successfully", cookieCleared := true } ∧
    ((logout (some t) store).2).filter (fun s => s.session_token == t) = [] ∧
    (logout (some t) ((logout (some t) store).2)).2
      = (logout (some t) store).2 ∧
    (logout none store).2 = store := by
  have h2 := filter_deleteOne_eq_nil t store h
  exact ⟨rfl, h2, deleteOne_of_filter_eq_nil t _ h2, rfl⟩

/-- C7 witness: logging out with token `tok-a` on a one-session store
reports success, leaves no session with that token, and a second revoke
of the same token is a no-op. -/
theorem logout_spec_witness :
    (logout (some "tok-a")
        [{ session_token := "tok-a", user_id := "u1",
           created_at := 0, expires_at := 604800 }]).1
      = { message := "Logged out successfully", cookieCleared := true } ∧
    ((logout (some "tok-a")
        [{ session_token := "tok-a", user_id := "u1",
           created_at := 0, expires_at := 604800 }]).2).filter
          (fun s => s.session_token == "tok-a") = [] ∧
    (logout (some "tok-a")
        ((logout (some "tok-a")
          [{ session_token := "tok-a", user_id := "u1",
             created_at := 0, expires_at := 604800 }]).2)).2
      = (logout (some "tok-a")
          [{ session_token := "tok-a", user_id := "u1",
             created_at := 0, expires_at := 604800 }]).2 ∧
    (logout none
        [{ session_token := "tok-a", user_id := "u1",
           created_at := 0, expires_at := 604800 }]).2
      = [{ session_token := "tok-a", user_id := "u1",
           created_at := 0, expires_at := 604800 }] :=
  logout_spec (some "tok-a") "tok-a"
    [{ session_token := "tok-a", user_id := "u1",
       created_at := 0, expires_at := 604800 }]
    (by decide)

/-- C8: a minted session expires exactly 7 days after its creation time,
and the session credential is delivered as an HTTP-only, secure cookie
scoped to the whole site with a 7-day lifetime. -/
theorem session_cookie_week_validity (token uid : String) (now : Nat) :
    (mintSession token uid now).expires_at
      = (mintSession token uid now).created_at + 7 * 24 * 60 * 60 ∧
    sessionCookie token
      = { key := "session_token", value := token, httponly := true,
          secure := true, samesite := "none",
          max_age := 7 * 24 * 60 * 60, path := "/" } :=
  ⟨rfl, rfl⟩

/-- C9: when the completion provider call fails, the chat handler
returns the placeholder answer with confidence exactly 0 instead of
propagating the error. -/
theorem chat_failure_placeholder (uid q err : String) (now : Nat)
    (log : List ChatMessage) :
    (aiChat uid q (Except.error err) now log).1
      = { answer := placeholderAnswer, confidence := 0, timestamp := now } :=
  rfl

/-- C10: on a completion failure the chat handler persists no message at
all — the log is unchanged — while still returning a success-shaped
placeholder response; persistence of exactly one user record followed by
one assistant record happens only when the completion call succeeds. -/
theorem chat_failure_no_persistence (uid q err reply : String) (now : Nat)
    (log : List ChatMessage) :
    (aiChat uid q (Except.error err) now log).2 = log ∧
    (aiChat uid q (Except.error err) now log).1.answer = placeholderAnswer ∧
    (aiChat uid q (Except.ok reply) now log).2
      = log ++
        [ { user_id := uid, role := "user", content := q,
            confidence := none, timestamp := now },
          { user_id := uid, role := "assistant", content := reply,
            confidence := some 92, timestamp := now } ] :=
  ⟨rfl, rfl, rfl⟩

end VinaEu
